import Mathlib

/- Shallow embedding of mysqlx-connector-python, lib/mysqlx/connection.py.
   Covered code: the prepared-statement execution pipeline of
   Connection._execute_prepared_pipeline, the penalty classification of
   PoolsManager.set_pool_unavailable, the availability window of
   ConnectionPool.set_unavailable together with
   PoolsManager._check_unavailable_pools, the router failover of
   RouterManager.get_next_router, the capacity discipline of
   ConnectionPool.add_connection, the terminal error classification of
   Connection.connect, Client._set_pool_size, and Session.close.
   Machine integers are modelled with Nat and Int, wall-clock instants with a
   Nat parameter threaded explicitly, and randomness with an explicit pick
   oracle. -/

namespace MysqlxConn

/- ## Prepared-statement pipeline
   Statement state as used by Connection._execute_prepared_pipeline.  The
   Statement class itself lives outside connection.py; the pipeline only
   reads and writes the flags below and calls reset_exec_counter (set the
   counter to 0) and increment_exec_counter (add one). -/

structure Stmt where
  stmt_id : Nat
  prepared : Bool
  changed : Bool
  repeated : Bool
  deallocate_prepare_execute : Bool
  exec_counter : Nat
deriving DecidableEq

/- One protocol send issued by the pipeline. -/
inductive Send where
  | prepareDeallocate (stmt_id : Nat)
  | preparePrepare (stmt_id : Nat)
  | prepareExecute (stmt_id : Nat)
  | msgWithoutPs
deriving DecidableEq

/- The connection state the pipeline touches: the connection-wide
   _prepared_stmt_supported flag and the _prepared_stmt_ids list. -/
structure PipelineConn where
  prepared_stmt_supported : Bool
  prepared_stmt_ids : List Nat
deriving DecidableEq

/- Result of one pipeline call: final connection and statement state, the
   list of protocol sends in order, and the number of
   increment_exec_counter calls made. -/
structure PipelineResult where
  conn : PipelineConn
  stmt : Stmt
  sends : List Send
  incs : Nat
deriving DecidableEq

/- Python list.remove drops the first occurrence. -/
def removeFirst (x : Nat) : List Nat → List Nat
  | [] => []
  | a :: rest => if a = x then rest else a :: removeFirst x rest

/- Connection._deallocate_statement. -/
def deallocate_statement (conn : PipelineConn) (stmt : Stmt) :
    PipelineConn × Stmt × List Send :=
  if stmt.prepared then
    ({ conn with prepared_stmt_ids := removeFirst stmt.stmt_id conn.prepared_stmt_ids },
     { stmt with prepared := false },
     [Send.prepareDeallocate stmt.stmt_id])
  else (conn, stmt, [])

/- Connection._prepare_statement.  prepareOk is false when the server
   answers send_prepare_prepare with NotSupportedError, in which case the
   connection-wide supported flag is cleared and the statement is left
   unprepared. -/
def prepare_statement (prepareOk : Bool) (conn : PipelineConn) (stmt : Stmt) :
    PipelineConn × Stmt × List Send :=
  if prepareOk then
    ({ conn with prepared_stmt_ids := conn.prepared_stmt_ids ++ [stmt.stmt_id] },
     { stmt with prepared := true },
     [Send.preparePrepare stmt.stmt_id])
  else
    ({ conn with prepared_stmt_supported := false }, stmt,
     [Send.preparePrepare stmt.stmt_id])

/- Connection._execute_prepared_pipeline, branch for branch.  An
   exec_counter value of 1 written below is reset_exec_counter followed by
   the trailing increment_exec_counter of the Python function; incs counts
   the increment_exec_counter calls.  The early returns of the Python code
   (the one-shot fallbacks taken when _prepared_stmt_supported is false)
   happen before the trailing increment, hence incs = 0 there. -/
def execute_prepared_pipeline (prepareOk : Bool) (conn : PipelineConn) (stmt : Stmt) :
    PipelineResult :=
  if !conn.prepared_stmt_supported then
    ⟨conn, stmt, [Send.msgWithoutPs], 0⟩
  else if stmt.deallocate_prepare_execute then
    let r1 := deallocate_statement conn stmt
    let r2 := prepare_statement prepareOk r1.1 r1.2.1
    if !r2.1.prepared_stmt_supported then
      ⟨r2.1, r2.2.1, r1.2.2 ++ r2.2.2 ++ [Send.msgWithoutPs], 0⟩
    else
      ⟨r2.1,
       { r2.2.1 with deallocate_prepare_execute := false, exec_counter := 1 },
       r1.2.2 ++ r2.2.2 ++ [Send.prepareExecute r2.2.1.stmt_id], 1⟩
  else if stmt.prepared && !stmt.changed then
    ⟨conn, { stmt with exec_counter := stmt.exec_counter + 1 },
     [Send.prepareExecute stmt.stmt_id], 1⟩
  else if stmt.changed && !stmt.repeated then
    let r1 := deallocate_statement conn stmt
    ⟨r1.1, { r1.2.1 with changed := false, exec_counter := 1 },
     r1.2.2 ++ [Send.msgWithoutPs], 1⟩
  else if !stmt.changed && !stmt.repeated then
    let r1 := if !stmt.prepared then prepare_statement prepareOk conn stmt
              else (conn, stmt, [])
    if !r1.1.prepared_stmt_supported then
      ⟨r1.1, r1.2.1, r1.2.2 ++ [Send.msgWithoutPs], 0⟩
    else
      ⟨r1.1, { r1.2.1 with exec_counter := r1.2.1.exec_counter + 1 },
       r1.2.2 ++ [Send.prepareExecute r1.2.1.stmt_id], 1⟩
  else if stmt.changed && stmt.repeated then
    let r1 := deallocate_statement conn stmt
    ⟨r1.1, { r1.2.1 with changed := false, exec_counter := 1 },
     r1.2.2 ++ [Send.msgWithoutPs], 1⟩
  else
    ⟨conn, { stmt with exec_counter := stmt.exec_counter + 1 }, [], 1⟩

/- A send that actually dispatches the statement to the server: either the
   one-shot Crud operation or Prepare::Execute. -/
def isDispatchSend : Send → Bool
  | Send.prepareExecute _ => true
  | Send.msgWithoutPs => true
  | _ => false

/- ## Penalty classification (PoolsManager.set_pool_unavailable) -/

/- The _TIMEOUT_PENALTIES dict in its insertion order; iteration in
   set_pool_unavailable follows this order and does not break, so the last
   matching key wins. -/
def TIMEOUT_PENALTIES : List (String × Nat) :=
  [("[WinError 10053]", 60),
   ("[Errno 32]", 60),
   ("[WinError 10061]", 1000000),
   ("[Errno 111]", 1000000),
   ("[WinError 10060]", 3600),
   ("[Errno 11001]", 3600),
   ("[Errno -2]", 3600),
   ("Access denied", 86400)]

def TIMEOUT_PENALTIES_BY_ERR_NO : List (Int × Nat) := [(1053, 60)]

def charsStartWith : List Char → List Char → Bool
  | [], _ => true
  | _ :: _, [] => false
  | n :: ns, h :: hs => (n == h) && charsStartWith ns hs

def charsContain (needle : List Char) : List Char → Bool
  | [] => charsStartWith needle []
  | h :: hs => charsStartWith needle (h :: hs) || charsContain needle hs

/- Python substring containment, key in err_msg. -/
def strContains (hay needle : String) : Bool :=
  charsContain needle.data hay.data

/- An error as inspected by set_pool_unavailable: an optional numeric errno
   attribute and a message string. -/
structure PyErr where
  errno : Option Int
  msg : String
deriving DecidableEq

/- Python truthiness of the penalty variable (None or 0 are falsy). -/
def truthy : Option Nat → Bool
  | none => false
  | some n => !(n == 0)

def penalty_by_err_no (e : PyErr) : Option Nat :=
  match e.errno with
  | some n => (TIMEOUT_PENALTIES_BY_ERR_NO.find? (fun kv => kv.1 == n)).map
      (fun kv => kv.2)
  | none => none

def penalty_from_msg (msg : String) (init : Option Nat) : Option Nat :=
  TIMEOUT_PENALTIES.foldl
    (fun acc kv => if strContains msg kv.1 then some kv.2 else acc) init

/- The penalty passed to pool.set_unavailable by
   PoolsManager.set_pool_unavailable: errno table first, message substrings
   second, severe default 100000 last. -/
def set_pool_unavailable_penalty (e : PyErr) : Nat :=
  let p0 := penalty_by_err_no e
  let p1 := if truthy p0 then p0 else penalty_from_msg e.msg p0
  if truthy p1 then p1.getD 0 else 100000

/- ## Pool availability window (ConnectionPool health state) -/

structure PoolHealth where
  available : Bool
  timeout : Int
  timeout_stamp : Nat
deriving DecidableEq

/- ConnectionPool.set_unavailable: a no-op while already unavailable. -/
def set_unavailable (now : Nat) (time_out : Int) (p : PoolHealth) : PoolHealth :=
  if p.available then
    { available := false, timeout := time_out, timeout_stamp := now }
  else p

/- ConnectionPool.set_available. -/
def set_available (now : Nat) (p : PoolHealth) : PoolHealth :=
  { p with available := true, timeout_stamp := now }

/- ConnectionPool.get_timeout_stamp. -/
def get_timeout_stamp (p : PoolHealth) : Int × Nat := (p.timeout, p.timeout_stamp)

/- Body of PoolsManager._check_unavailable_pools for one pool: revive a
   pool only when now is strictly past timeout_stamp plus timeout; a falsy
   revive argument (None or 0) leaves the stored timeout in force. -/
def check_unavailable_pool (now : Nat) (revive : Option Int) (p : PoolHealth) :
    PoolHealth :=
  if p.available then p
  else
    let t := match revive with
      | some r => if r == 0 then p.timeout else r
      | none => p.timeout
    if (now : Int) > (p.timeout_stamp : Int) + t then set_available now p else p

/- PoolsManager.set_pool_unavailable applied to a pool at instant now. -/
def set_pool_unavailable (now : Nat) (p : PoolHealth) (e : PyErr) : PoolHealth :=
  set_unavailable now (Int.ofNat (set_pool_unavailable_penalty e)) p

/- ## Router failover (RouterManager) -/

structure RouterR where
  rid : Nat
  available : Bool
deriving DecidableEq

/- RouterManager state: _routers_directory keyed by priority,
   routers_priority_list, _cur_priority_idx and _can_failover; has_routers
   records whether the settings carried any router at all. -/
structure RouterMgr where
  has_routers : Bool
  dir : List (Nat × List RouterR)
  plist : List Nat
  cur_priority_idx : Nat
  can_failover : Bool
deriving DecidableEq

/- RouterManager._get_available_routers. -/
def get_available_routers (dir : List (Nat × List RouterR)) (priority : Nat) :
    List RouterR :=
  (((dir.find? (fun kv => kv.1 == priority)).map (fun kv => kv.2)).getD []).filter
    (fun r => r.available)

/- RouterManager._get_random_connection_params; random.randint(0, last) is
   the oracle value pick last, in range when pick n is at most n. -/
def get_random_connection_params (pick : Nat → Nat)
    (dir : List (Nat × List RouterR)) (priority : Nat) : Option RouterR :=
  let router_list := get_available_routers dir priority
  if router_list.length = 0 then none
  else if router_list.length = 1 then router_list.head?
  else router_list.get? (pick (router_list.length - 1))

/- The while-search loop of RouterManager.get_next_router.  Each pass either
   breaks or increments the index, so fuel of plist.length + 1 - idx is
   exact and the fuel-0 fallback is unreachable from get_next_router. -/
def get_next_router_loop (pick : Nat → Nat) (dir : List (Nat × List RouterR))
    (plist : List Nat) : Nat → Nat → Nat → Bool → Option RouterR × Nat × Bool
  | 0, idx, _, can_failover => (none, idx, can_failover)
  | fuel + 1, idx, cur_priority, can_failover =>
    let router := get_random_connection_params pick dir cur_priority
    if router.isSome = true ∨ plist.length ≤ idx then
      if idx = plist.length - 1 ∧ (get_available_routers dir cur_priority).length < 2 then
        (router, idx, false)
      else (router, idx, can_failover)
    else
      get_next_router_loop pick dir plist fuel (idx + 1)
        (if idx + 1 < plist.length then plist.getD (idx + 1) cur_priority
         else cur_priority)
        can_failover

/- The Router built from plain settings when no routers were configured. -/
def default_router : RouterR := ⟨0, true⟩

/- RouterManager.get_next_router. -/
def get_next_router (pick : Nat → Nat) (m : RouterMgr) : Option RouterR × RouterMgr :=
  if !m.has_routers then
    (some default_router, { m with can_failover := false })
  else
    let r := get_next_router_loop pick m.dir m.plist
      (m.plist.length + 1 - m.cur_priority_idx) m.cur_priority_idx
      (m.plist.getD m.cur_priority_idx 0) m.can_failover
    (r.1, { m with cur_priority_idx := r.2.1, can_failover := r.2.2 })

/- ## Connection.connect terminal error classification -/

/- A transport error caught by the connect loop; socket.timeout instances
   are the ones flagged here. -/
structure TErr where
  is_socket_timeout : Bool
deriving DecidableEq

/- The four raises at the end of Connection.connect: TimeoutError or
   InterfaceError, each with a single-endpoint or multi-endpoint message. -/
inductive ConnectError where
  | timeoutSingle
  | timeoutMulti
  | interfaceSingle
  | interfaceMulti
deriving DecidableEq

/- Lines 824-837 of connection.py: numRouters is len(self._routers). -/
def connect_raise (error : Option TErr) (numRouters : Nat) : ConnectError :=
  match error with
  | some e =>
    if e.is_socket_timeout then
      if numRouters ≤ 1 then ConnectError.timeoutSingle else ConnectError.timeoutMulti
    else
      if numRouters ≤ 1 then ConnectError.interfaceSingle
      else ConnectError.interfaceMulti
  | none =>
    if numRouters ≤ 1 then ConnectError.interfaceSingle else ConnectError.interfaceMulti

/- router.set_unavailable flips the shared Router object, visible through
   the directory; routers are identified by rid. -/
def mark_unavailable (dir : List (Nat × List RouterR)) (rid : Nat) :
    List (Nat × List RouterR) :=
  dir.map (fun kv =>
    (kv.1, kv.2.map (fun r => if r.rid = rid then { r with available := false } else r)))

/- The while can_failover loop of Connection.connect.  attempt returns none
   on a successful transport connect and the caught error otherwise.  The
   result pairs the final value of the local error variable with the
   outcome; none stands for a run that needs more fuel or that dereferences
   a missing router (which in Python escapes as an uncaught exception, not
   as one of the classified errors). -/
def connect_loop (pick : Nat → Nat) (attempt : Nat → Option TErr) (numRouters : Nat) :
    Nat → RouterMgr → Option TErr → Option (Option TErr × Except ConnectError Unit)
  | 0, _, _ => none
  | fuel + 1, m, error =>
    if m.can_failover then
      match (get_next_router pick m).1 with
      | none => none
      | some router =>
        match attempt router.rid with
        | none => some (error, Except.ok ())
        | some err =>
          connect_loop pick attempt numRouters fuel
            { (get_next_router pick m).2 with
              dir := mark_unavailable (get_next_router pick m).2.dir router.rid }
            (some err)
    else
      some (error, Except.error (connect_raise error numRouters))

/- ## ConnectionPool capacity (add_connection) -/

structure PoolConn where
  cid : Nat
  server_disconnected : Bool
deriving DecidableEq

/- The pool state add_connection touches: the idle queue (a queue.Queue
   with maxsize pool_max_size), the _connections_openned list, and whether
   cnx_config is set. -/
structure PoolState where
  has_config : Bool
  pool_max_size : Nat
  queue : List PoolConn
  connections_openned : List PoolConn
deriving DecidableEq

inductive PoolErrKind where
  | configMissing
  | queueFull
deriving DecidableEq

/- queue.Queue.full: true when 0 < maxsize and maxsize is at most qsize. -/
def pool_full (p : PoolState) : Bool :=
  decide (0 < p.pool_max_size ∧ p.pool_max_size ≤ p.queue.length)

/- ConnectionPool.remove_connections: drain the idle queue, dropping each
   drained connection from _connections_openned. -/
def remove_connections (p : PoolState) : PoolState :=
  { p with queue := [],
           connections_openned :=
             p.connections_openned.filter (fun c => !(p.queue.contains c)) }

/- ConnectionPool.queue_connection: put with block false raises queue.Full
   at capacity. -/
def queue_connection (p : PoolState) (c : PoolConn) : Except PoolErrKind PoolState :=
  if pool_full p then Except.error PoolErrKind.queueFull
  else Except.ok { p with queue := p.queue ++ [c] }

/- ConnectionPool.add_connection.  fresh stands for the PooledConnection
   built when no connection is passed in; the version probe and
   mysqlx_wait_timeout setup touch only the server. -/
def add_connection (fresh : PoolConn) (p : PoolState) (ocnx : Option PoolConn) :
    Except PoolErrKind PoolState :=
  if !p.has_config then Except.error PoolErrKind.configMissing
  else if pool_full p then Except.error PoolErrKind.queueFull
  else
    match ocnx with
    | none =>
      queue_connection
        { p with connections_openned := p.connections_openned ++ [fresh] } fresh
    | some c =>
      if c.server_disconnected then queue_connection (remove_connections p) c
      else queue_connection p c

/- ## Client._set_pool_size -/

/- The Python value given as pooling max_size: a bool (which is also an int
   in Python), a plain int, or anything else. -/
inductive PySize where
  | pybool (b : Bool)
  | pyint (n : Int)
  | pyother
deriving DecidableEq

def is_bool_val : PySize → Bool
  | PySize.pybool _ => true
  | _ => false

def is_int_val : PySize → Bool
  | PySize.pybool _ => true
  | PySize.pyint _ => true
  | PySize.pyother => false

def int_val : PySize → Int
  | PySize.pybool b => if b then 1 else 0
  | PySize.pyint n => n
  | PySize.pyother => 0

def CNX_POOL_MAXSIZE : Int := 99

/- Client._set_pool_size: ok carries the resulting max_size, error is the
   AttributeError raise. -/
def set_pool_size (v : PySize) : Except Unit Int :=
  if is_bool_val v = true ∨ is_int_val v = false ∨ ¬ int_val v > 0 then
    Except.error ()
  else
    Except.ok (if int_val v = 0 then CNX_POOL_MAXSIZE else int_val v)

/- ## Session.close -/

structure SocketStreamM where
  sock : Option Nat
deriving DecidableEq

def SocketStreamM.init : SocketStreamM := ⟨none⟩

def SocketStreamM.is_open (s : SocketStreamM) : Bool := s.sock.isSome

def SocketStreamM.close (_ : SocketStreamM) : SocketStreamM := ⟨none⟩

/- The Connection state Session.close manipulates; settings_id abstracts
   the settings dict handed to Connection.__init__. -/
structure ConnectionM where
  settings_id : Nat
  stream : SocketStreamM
  stmt_counter : Nat
  prepared_stmt_ids : List Nat
  prepared_stmt_supported : Bool
  server_disconnected : Bool
deriving DecidableEq

/- Connection.__init__: a fresh SocketStream whose socket is None. -/
def Connection_init (sid : Nat) : ConnectionM :=
  { settings_id := sid, stream := SocketStreamM.init, stmt_counter := 0,
    prepared_stmt_ids := [], prepared_stmt_supported := true,
    server_disconnected := false }

/- Connection.close_session on the success path: protocol teardown, then
   the stream is closed in the finally block. -/
def ConnectionM.close_session (c : ConnectionM) : ConnectionM :=
  if !c.stream.is_open then c
  else { c with stream := SocketStreamM.close c.stream,
                stmt_counter := if c.prepared_stmt_supported then 0 else c.stmt_counter }

structure SessionM where
  settings_id : Nat
  connection : ConnectionM
deriving DecidableEq

/- Session.is_open reads self._connection.stream.is_open(). -/
def Session_is_open (s : SessionM) : Bool := s.connection.stream.is_open

/- Session.close: close_session on the held connection (for a pooled
   connection this returns it to its pool, outside the session state), then
   replace it with a freshly constructed Connection. -/
def Session_close (s : SessionM) : SessionM :=
  let _prev := ConnectionM.close_session s.connection
  { s with connection := Connection_init s.settings_id }

/- ## Shared concrete instances used by witnesses -/

def mgr_ex : RouterMgr := ⟨true, [(100, [⟨7, true⟩])], [100], 0, true⟩

/- # Theorems -/

/-- Claim C1, counterexample: with the connection-wide prepared-statement
supported flag false, the pipeline dispatches the statement one-shot
(Crud operation) yet performs zero increment_exec_counter calls, so a
successful dispatch does not increment the execution counter. -/
theorem pipeline_unsupported_dispatch_cex :
    ((execute_prepared_pipeline true ⟨false, []⟩ ⟨1, false, false, false, false, 0⟩).sends.any
        isDispatchSend = true) ∧
    (execute_prepared_pipeline true ⟨false, []⟩ ⟨1, false, false, false, false, 0⟩).incs = 0 := by
  decide

/-- Claim C1, amended: a dispatch made while the prepared-statement
supported flag is true at entry and the server does not reject PREPARE
during the call increments the statement execution counter exactly once;
the one-shot fallback dispatch taken when the flag is false at entry
performs no increment; and a call entered with the flag true that clears
it (which happens exactly when a PREPARE is rejected mid-call) still
dispatches the statement one-shot but returns before the increment,
leaving the counter untouched as well. -/
theorem pipeline_dispatch_increments_once (prepareOk : Bool) (conn : PipelineConn)
    (stmt : Stmt) :
    (conn.prepared_stmt_supported = true → prepareOk = true →
       (execute_prepared_pipeline prepareOk conn stmt).sends.any isDispatchSend = true →
       (execute_prepared_pipeline prepareOk conn stmt).incs = 1) ∧
    (conn.prepared_stmt_supported = false →
       (execute_prepared_pipeline prepareOk conn stmt).sends = [Send.msgWithoutPs] ∧
       (execute_prepared_pipeline prepareOk conn stmt).incs = 0) ∧
    (conn.prepared_stmt_supported = true →
       (execute_prepared_pipeline prepareOk conn stmt).conn.prepared_stmt_supported
         = false →
       (execute_prepared_pipeline prepareOk conn stmt).sends.any isDispatchSend = true ∧
       (execute_prepared_pipeline prepareOk conn stmt).incs = 0) := by
  obtain ⟨sup, ids⟩ := conn
  obtain ⟨sid, p, c, r, d, k⟩ := stmt
  refine ⟨?_, ?_, ?_⟩
  · intro hsup hok _
    subst hsup; subst hok
    cases p <;> cases c <;> cases r <;> cases d <;>
      simp [execute_prepared_pipeline, prepare_statement, deallocate_statement]
  · intro hsup
    subst hsup
    simp [execute_prepared_pipeline]
  · intro hsup hcleared
    subst hsup
    cases prepareOk <;> cases p <;> cases c <;> cases r <;> cases d <;>
      simp_all [execute_prepared_pipeline, prepare_statement, deallocate_statement,
        isDispatchSend]

/-- Claim C1 witness: concrete runs of the amended theorem on a fresh
statement over a supporting connection, once with PREPARE accepted (one
increment) and once with PREPARE rejected mid-call (a dispatch with no
increment). -/
theorem pipeline_dispatch_increments_once_witness :
    (execute_prepared_pipeline true ⟨true, []⟩ ⟨1, false, false, false, false, 0⟩).incs = 1 ∧
    ((execute_prepared_pipeline false ⟨true, []⟩
        ⟨1, false, false, false, false, 0⟩).sends.any isDispatchSend = true ∧
     (execute_prepared_pipeline false ⟨true, []⟩
        ⟨1, false, false, false, false, 0⟩).incs = 0) :=
  ⟨(pipeline_dispatch_increments_once true ⟨true, []⟩
      ⟨1, false, false, false, false, 0⟩).1 rfl rfl (by decide),
   (pipeline_dispatch_increments_once false ⟨true, []⟩
      ⟨1, false, false, false, false, 0⟩).2.2 rfl (by decide)⟩

/-- Claim C2: a statement starting at prepared=false, changed=false,
repeated=false with the deallocate flag unset, on a connection whose
prepared-statement support has not been rejected: the first execution
sends Prepare::Prepare followed by Prepare::Execute and leaves
prepared=true, and a second execution with changed still false sends
Prepare::Execute alone, on the same statement id, with no further
Prepare::Prepare. -/
theorem pipeline_first_then_execute_only (prepareOk2 : Bool) (conn : PipelineConn)
    (stmt : Stmt) (hsup : conn.prepared_stmt_supported = true)
    (hp : stmt.prepared = false) (hc : stmt.changed = false)
    (hr : stmt.repeated = false) (hd : stmt.deallocate_prepare_execute = false) :
    (execute_prepared_pipeline true conn stmt).sends =
      [Send.preparePrepare stmt.stmt_id, Send.prepareExecute stmt.stmt_id] ∧
    (execute_prepared_pipeline true conn stmt).stmt.prepared = true ∧
    (execute_prepared_pipeline true conn stmt).stmt.changed = false ∧
    (execute_prepared_pipeline prepareOk2 (execute_prepared_pipeline true conn stmt).conn
        (execute_prepared_pipeline true conn stmt).stmt).sends =
      [Send.prepareExecute stmt.stmt_id] := by
  obtain ⟨sup, ids⟩ := conn
  obtain ⟨sid, p, c, r, d, k⟩ := stmt
  simp only at hsup hp hc hr hd
  subst hsup; subst hp; subst hc; subst hr; subst hd
  simp [execute_prepared_pipeline, prepare_statement, deallocate_statement]

/-- Claim C2 witness: the two-execution scenario run on concrete data. -/
theorem pipeline_first_then_execute_only_witness :
    (execute_prepared_pipeline true ⟨true, []⟩ ⟨4, false, false, false, false, 0⟩).sends =
      [Send.preparePrepare 4, Send.prepareExecute 4] ∧
    (execute_prepared_pipeline true
        (execute_prepared_pipeline true ⟨true, []⟩ ⟨4, false, false, false, false, 0⟩).conn
        (execute_prepared_pipeline true ⟨true, []⟩
            ⟨4, false, false, false, false, 0⟩).stmt).sends =
      [Send.prepareExecute 4] := by
  have h := pipeline_first_then_execute_only true ⟨true, []⟩
    ⟨4, false, false, false, false, 0⟩ rfl rfl rfl rfl rfl
  exact ⟨h.1, h.2.2.2⟩

/-- Claim C3, counterexample: the substring scan of set_pool_unavailable
keeps the last matching table entry, so a message that contains the
substring Errno 111 together with a later-listed key receives the
later key's penalty of 3600 seconds, not 1000000. -/
theorem penalty_substring_cex :
    strContains "connect: [Errno 111] then [Errno -2]" "[Errno 111]" = true ∧
    set_pool_unavailable_penalty ⟨none, "connect: [Errno 111] then [Errno -2]"⟩ = 3600 := by
  decide

/-- Claim C3, amended: an errno present in the code-based table applies
that penalty without consulting the message; otherwise the substring scan
applies the last matching key of the fixed table, so a message containing
Access denied (the final key) always yields 86400 seconds, one containing
Errno 111 yields 1000000 seconds provided no later-listed key also occurs,
and a message matching no key yields the severe default of 100000 seconds;
the chosen penalty is what set_pool_unavailable hands to the available
pool. -/
theorem set_pool_unavailable_penalty_spec :
    (∀ msg : String, set_pool_unavailable_penalty ⟨some 1053, msg⟩ = 60) ∧
    (∀ msg : String, strContains msg "Access denied" = true →
       set_pool_unavailable_penalty ⟨none, msg⟩ = 86400) ∧
    (∀ msg : String, strContains msg "[Errno 111]" = true →
       strContains msg "[WinError 10060]" = false →
       strContains msg "[Errno 11001]" = false →
       strContains msg "[Errno -2]" = false →
       strContains msg "Access denied" = false →
       set_pool_unavailable_penalty ⟨none, msg⟩ = 1000000) ∧
    (∀ msg : String,
       strContains msg "[WinError 10053]" = false →
       strContains msg "[Errno 32]" = false →
       strContains msg "[WinError 10061]" = false →
       strContains msg "[Errno 111]" = false →
       strContains msg "[WinError 10060]" = false →
       strContains msg "[Errno 11001]" = false →
       strContains msg "[Errno -2]" = false →
       strContains msg "Access denied" = false →
       set_pool_unavailable_penalty ⟨none, msg⟩ = 100000) ∧
    (∀ (msg : String) (now : Nat) (p : PoolHealth), p.available = true →
       strContains msg "Access denied" = true →
       (set_pool_unavailable now p ⟨none, msg⟩).available = false ∧
       (set_pool_unavailable now p ⟨none, msg⟩).timeout = 86400) := by
  refine ⟨?_, ?_, ?_, ?_, ?_⟩
  · intro msg
    simp [set_pool_unavailable_penalty, penalty_by_err_no, TIMEOUT_PENALTIES_BY_ERR_NO,
      truthy, List.find?]
  · intro msg h
    simp [set_pool_unavailable_penalty, penalty_by_err_no, truthy, penalty_from_msg,
      TIMEOUT_PENALTIES, h]
  · intro msg h1 h2 h3 h4 h5
    simp [set_pool_unavailable_penalty, penalty_by_err_no, truthy, penalty_from_msg,
      TIMEOUT_PENALTIES, h1, h2, h3, h4, h5]
  · intro msg h1 h2 h3 h4 h5 h6 h7 h8
    simp [set_pool_unavailable_penalty, penalty_by_err_no, truthy, penalty_from_msg,
      TIMEOUT_PENALTIES, h1, h2, h3, h4, h5, h6, h7, h8]
  · intro msg now p hav h
    have hpen : set_pool_unavailable_penalty ⟨none, msg⟩ = 86400 := by
      simp [set_pool_unavailable_penalty, penalty_by_err_no, truthy, penalty_from_msg,
        TIMEOUT_PENALTIES, h]
    simp [set_pool_unavailable, set_unavailable, hav, hpen]

/-- Claim C3 witness: the amended classification evaluated on concrete
errors of each kind. -/
theorem set_pool_unavailable_penalty_spec_witness :
    set_pool_unavailable_penalty ⟨some 1053, "Access denied for user"⟩ = 60 ∧
    set_pool_unavailable_penalty ⟨none, "Access denied for user"⟩ = 86400 ∧
    set_pool_unavailable_penalty ⟨none, "fail: [Errno 111] Connection refused"⟩ = 1000000 ∧
    set_pool_unavailable_penalty ⟨none, "something else entirely"⟩ = 100000 ∧
    (set_pool_unavailable 3 ⟨true, 0, 0⟩ ⟨none, "Access denied for user"⟩).timeout = 86400 := by
  refine ⟨set_pool_unavailable_penalty_spec.1 "Access denied for user",
    set_pool_unavailable_penalty_spec.2.1 "Access denied for user" (by decide),
    set_pool_unavailable_penalty_spec.2.2.1 "fail: [Errno 111] Connection refused"
      (by decide) (by decide) (by decide) (by decide) (by decide),
    set_pool_unavailable_penalty_spec.2.2.2.1 "something else entirely"
      (by decide) (by decide) (by decide) (by decide) (by decide) (by decide)
      (by decide) (by decide),
    (set_pool_unavailable_penalty_spec.2.2.2.2 "Access denied for user" 3 ⟨true, 0, 0⟩
      rfl (by decide)).2⟩

/-- Claim C6, counterexample: a pool made unavailable at T = 0 with
penalty P = 5 is checked at exactly now = T + P; revival requires now
strictly greater than the stamp plus the penalty, so the pool is still
unavailable although now < T + P fails, refuting the claim's gloss that
available() is false only while now < penalty_timestamp +
penalty_seconds. -/
theorem pool_penalty_boundary_cex :
    (check_unavailable_pool 5 none (set_unavailable 0 5 ⟨true, 0, 0⟩)).available = false ∧
    ¬ ((5 : Int) < (0 : Int) + 5) := by
  decide

/-- Claim C6, amended: a pool marked unavailable at time T with penalty P
stays unchanged, hence unavailable, under every availability check made at
or before T + P, and the first check made strictly after T + P sets it
available again; available()==false persists until such a strictly-later
check occurs, the revival test being now > penalty_timestamp +
penalty_seconds with strict inequality. -/
theorem pool_penalty_window_spec (p : PoolHealth) (T : Nat) (P : Int)
    (hav : p.available = true) :
    (set_unavailable T P p).available = false ∧
    (∀ now : Nat, (now : Int) ≤ (T : Int) + P →
       check_unavailable_pool now none (set_unavailable T P p) = set_unavailable T P p) ∧
    (∀ now : Nat, (T : Int) + P < (now : Int) →
       (check_unavailable_pool now none (set_unavailable T P p)).available = true) := by
  have hu : set_unavailable T P p = ⟨false, P, T⟩ := by
    simp [set_unavailable, hav]
  refine ⟨by simp [hu], ?_, ?_⟩
  · intro now hle
    rw [hu]
    simp only [check_unavailable_pool]
    have : ¬ ((T : Int) + P < (now : Int)) := by omega
    simp [this]
  · intro now hgt
    rw [hu]
    simp only [check_unavailable_pool]
    simp [set_available, hgt]

/-- Claim C6 witness: the amended window behavior on a concrete pool with
penalty 5 granted at time 0, checked at times 5 and 6. -/
theorem pool_penalty_window_spec_witness :
    (set_unavailable 0 5 ⟨true, 0, 0⟩).available = false ∧
    check_unavailable_pool 5 none (set_unavailable 0 5 ⟨true, 0, 0⟩) =
      set_unavailable 0 5 ⟨true, 0, 0⟩ ∧
    (check_unavailable_pool 6 none (set_unavailable 0 5 ⟨true, 0, 0⟩)).available = true := by
  have h := pool_penalty_window_spec ⟨true, 0, 0⟩ 0 5 rfl
  exact ⟨h.1, h.2.1 5 (by decide), h.2.2 6 (by decide)⟩

/-- Claim C8: calling set_unavailable on a pool that is already
unavailable changes nothing; in particular get_timeout_stamp returns the
same penalty duration and penalty timestamp as before the call. -/
theorem set_unavailable_frame_spec (p : PoolHealth) (now : Nat) (t : Int)
    (hun : p.available = false) :
    set_unavailable now t p = p ∧
    get_timeout_stamp (set_unavailable now t p) = get_timeout_stamp p := by
  have h : set_unavailable now t p = p := by
    simp [set_unavailable, hun]
  exact ⟨h, by rw [h]⟩

/-- Claim C8 witness: a second, later set_unavailable with a different
penalty leaves a concrete unavailable pool untouched. -/
theorem set_unavailable_frame_spec_witness :
    set_unavailable 9 100 ⟨false, 5, 2⟩ = ⟨false, 5, 2⟩ ∧
    get_timeout_stamp (set_unavailable 9 100 ⟨false, 5, 2⟩) = (5, 2) :=
  ⟨(set_unavailable_frame_spec ⟨false, 5, 2⟩ 9 100 rfl).1,
   by rw [(set_unavailable_frame_spec ⟨false, 5, 2⟩ 9 100 rfl).1]; rfl⟩

/-- A successful non-blocking enqueue presupposes a queue strictly below
capacity and yields a queue within capacity. -/
theorem queue_connection_ok_bound (p : PoolState) (c : PoolConn) (p2 : PoolState)
    (hmax : 1 ≤ p.pool_max_size) (h : queue_connection p c = Except.ok p2) :
    p2.queue.length ≤ p.pool_max_size ∧ p2.pool_max_size = p.pool_max_size := by
  unfold queue_connection at h
  split at h
  · simp at h
  next hfull =>
    injection h with h
    subst h
    simp only [pool_full, decide_eq_true_eq] at hfull
    simp only [List.length_append, List.length_cons, List.length_nil]
    constructor
    · omega
    · trivial

/-- Claim C5: for a configured pool of positive capacity max_size, a call
to add_connection made while the idle queue already holds max_size
connections fails with the queue-full pool error before mutating
anything, and every successful add_connection leaves the idle queue with
at most max_size connections. -/
theorem add_connection_capacity_spec (fresh : PoolConn) (p : PoolState)
    (ocnx : Option PoolConn) (hcfg : p.has_config = true)
    (hmax : 1 ≤ p.pool_max_size) :
    (p.queue.length = p.pool_max_size →
       add_connection fresh p ocnx = Except.error PoolErrKind.queueFull) ∧
    (∀ p2 : PoolState, add_connection fresh p ocnx = Except.ok p2 →
       p2.queue.length ≤ p.pool_max_size) := by
  constructor
  · intro hlen
    have hfull : pool_full p = true := by
      simp [pool_full]
      omega
    simp [add_connection, hcfg, hfull]
  · intro p2 hok
    unfold add_connection at hok
    split at hok
    · simp at hok
    · split at hok
      · simp at hok
      · split at hok
        · have h := queue_connection_ok_bound _ _ _ (by simpa using hmax) hok
          simpa using h.1
        · split at hok
          · have h := queue_connection_ok_bound _ _ _
              (by simpa [remove_connections] using hmax) hok
            simpa [remove_connections] using h.1
          · have h := queue_connection_ok_bound _ _ _ hmax hok
            exact h.1

/-- Claim C5 witness: with capacity 2, two add_connection calls succeed
and the third raises the queue-full pool error. -/
theorem add_connection_capacity_spec_witness :
    (∃ p1 : PoolState,
       add_connection ⟨1, false⟩ ⟨true, 2, [], []⟩ none = Except.ok p1 ∧
       p1.queue.length ≤ 2) ∧
    (∃ p2 : PoolState,
       add_connection ⟨2, false⟩ ⟨true, 2, [⟨1, false⟩], [⟨1, false⟩]⟩ none = Except.ok p2 ∧
       p2.queue.length ≤ 2) ∧
    add_connection ⟨3, false⟩ ⟨true, 2, [⟨1, false⟩, ⟨2, false⟩], [⟨1, false⟩, ⟨2, false⟩]⟩
        none = Except.error PoolErrKind.queueFull := by
  refine ⟨⟨⟨true, 2, [⟨1, false⟩], [⟨1, false⟩]⟩, rfl, ?_⟩,
    ⟨⟨true, 2, [⟨1, false⟩, ⟨2, false⟩], [⟨1, false⟩, ⟨2, false⟩]⟩, rfl, ?_⟩, ?_⟩
  · exact (add_connection_capacity_spec ⟨1, false⟩ ⟨true, 2, [], []⟩ none rfl
      (by decide)).2 _ rfl
  · exact (add_connection_capacity_spec ⟨2, false⟩ ⟨true, 2, [⟨1, false⟩], [⟨1, false⟩]⟩
      none rfl (by decide)).2 _ rfl
  · exact (add_connection_capacity_spec ⟨3, false⟩
      ⟨true, 2, [⟨1, false⟩, ⟨2, false⟩], [⟨1, false⟩, ⟨2, false⟩]⟩ none rfl
      (by decide)).1 rfl

/-- Claim C9: Client construction rejects with AttributeError every
pooling max_size that is not an int strictly greater than zero, booleans
included; a successful call returns the given positive int unchanged, so
the fallback mapping 0 to the 99-connection process maximum is
unreachable. -/
theorem set_pool_size_spec (v : PySize) :
    (∀ m : Int, set_pool_size v = Except.ok m →
       ∃ n : Int, v = PySize.pyint n ∧ 0 < n ∧ m = n) ∧
    (∀ b : Bool, set_pool_size (PySize.pybool b) = Except.error ()) ∧
    (∀ n : Int, n ≤ 0 → set_pool_size (PySize.pyint n) = Except.error ()) ∧
    set_pool_size PySize.pyother = Except.error () ∧
    set_pool_size (PySize.pyint 0) = Except.error () := by
  refine ⟨?_, ?_, ?_, rfl, rfl⟩
  · intro m hok
    rcases v with b | n | _
    · simp [set_pool_size, is_bool_val] at hok
    · by_cases hpos : (0 : Int) < n
      · refine ⟨n, rfl, hpos, ?_⟩
        have hne : n ≠ 0 := by omega
        simp [set_pool_size, is_bool_val, is_int_val, int_val, hpos, hne] at hok
        omega
      · simp [set_pool_size, is_bool_val, is_int_val, int_val, hpos] at hok
    · simp [set_pool_size, is_int_val] at hok
  · intro b
    simp [set_pool_size, is_bool_val]
  · intro n hle
    have : ¬ (0 : Int) < n := by omega
    simp [set_pool_size, is_bool_val, is_int_val, int_val, this]

/-- Claim C9 witness: max_size 3 is accepted as given, and 0, True and a
non-int are rejected. -/
theorem set_pool_size_spec_witness :
    (∃ n : Int, PySize.pyint (3 : Int) = PySize.pyint n ∧ 0 < n ∧ (3 : Int) = n) ∧
    set_pool_size (PySize.pybool true) = Except.error () ∧
    set_pool_size (PySize.pyint (-2)) = Except.error () ∧
    set_pool_size PySize.pyother = Except.error () ∧
    set_pool_size (PySize.pyint 0) = Except.error () :=
  ⟨(set_pool_size_spec (PySize.pyint 3)).1 3 rfl,
   (set_pool_size_spec (PySize.pybool true)).2.1 true,
   (set_pool_size_spec (PySize.pyint (-2))).2.2.1 (-2) (by decide),
   (set_pool_size_spec PySize.pyother).2.2.2.1,
   (set_pool_size_spec (PySize.pyint 0)).2.2.2.2⟩

/-- Claim C10: after Session.close the session holds a freshly
constructed, unconnected Connection built from the session settings, so
Session.is_open is false; when the previously held connection was open,
the stored connection is a different object, no longer reachable through
the session. -/
theorem session_close_fresh_spec (s : SessionM) :
    Session_is_open (Session_close s) = false ∧
    (Session_close s).connection = Connection_init s.settings_id ∧
    (Session_is_open s = true → (Session_close s).connection ≠ s.connection) := by
  refine ⟨rfl, rfl, ?_⟩
  intro hopen heq
  have hnew : (Session_close s).connection.stream.sock = none := rfl
  rw [heq] at hnew
  simp [Session_is_open, SocketStreamM.is_open, hnew] at hopen

/-- Claim C10 witness: closing a concrete open session yields a closed
session holding the fresh connection, distinct from the old one. -/
theorem session_close_fresh_spec_witness :
    Session_is_open (Session_close ⟨5, ⟨5, ⟨some 3⟩, 2, [9], true, false⟩⟩) = false ∧
    (Session_close ⟨5, ⟨5, ⟨some 3⟩, 2, [9], true, false⟩⟩).connection =
      Connection_init 5 ∧
    (Session_close ⟨5, ⟨5, ⟨some 3⟩, 2, [9], true, false⟩⟩).connection ≠
      (⟨5, ⟨some 3⟩, 2, [9], true, false⟩ : ConnectionM) :=
  ⟨(session_close_fresh_spec ⟨5, ⟨5, ⟨some 3⟩, 2, [9], true, false⟩⟩).1,
   (session_close_fresh_spec ⟨5, ⟨5, ⟨some 3⟩, 2, [9], true, false⟩⟩).2.1,
   (session_close_fresh_spec ⟨5, ⟨5, ⟨some 3⟩, 2, [9], true, false⟩⟩).2.2 rfl⟩

theorem getD_default_irrel : ∀ (l : List Nat) (n : Nat), n < l.length →
    ∀ (a b : Nat), l.getD n a = l.getD n b := by
  intro l
  induction l with
  | nil => intro n h; simp at h
  | cons x xs ih =>
    intro n h a b
    cases n with
    | zero => rfl
    | succ m => exact ih m (by simpa using h) a b

theorem get_lt_isSome : ∀ (l : List RouterR) (n : Nat), n < l.length →
    (l.get? n).isSome = true := by
  intro l
  induction l with
  | nil => intro n h; simp at h
  | cons a as ih =>
    intro n h
    cases n with
    | zero => rfl
    | succ m => exact ih m (by simpa using h)

/-- With an in-range pick oracle, _get_random_connection_params returns no
router exactly when the priority group has no available router. -/
theorem get_random_none_iff (pick : Nat → Nat) (dir : List (Nat × List RouterR))
    (cur : Nat) (hpick : ∀ n, pick n ≤ n) :
    get_random_connection_params pick dir cur = none ↔
      get_available_routers dir cur = [] := by
  cases hl : get_available_routers dir cur with
  | nil =>
    simp [get_random_connection_params, hl]
  | cons a as =>
    simp only [get_random_connection_params, hl]
    constructor
    · intro h
      by_cases h1 : (a :: as).length = 1
      · rw [if_neg (by simp), if_pos h1] at h
        simp at h
      · rw [if_neg (by simp), if_neg h1] at h
        have hlt : pick ((a :: as).length - 1) < (a :: as).length := by
          have h2 := hpick ((a :: as).length - 1)
          simp only [List.length_cons] at h2 ⊢
          omega
        have hs := get_lt_isSome (a :: as) _ hlt
        rw [h] at hs
        simp at hs
    · intro h
      simp at h

/-- Invariant proof for the search loop of RouterManager.get_next_router:
whenever the loop hands back a router and its final index is the last
tier, a last tier holding fewer than two available routers forces the
can-failover flag to false, and a last tier holding exactly one available
router is the one returned. -/
theorem gnr_loop_spec (pick : Nat → Nat) (dir : List (Nat × List RouterR))
    (plist : List Nat) (hpick : ∀ n, pick n ≤ n) (hne : plist ≠ []) :
    ∀ (fuel idx cur : Nat) (canF : Bool),
      plist.length + 1 - idx ≤ fuel → idx ≤ plist.length →
      (cur = plist.getD idx 0 ∨
        (plist.length ≤ idx ∧ get_available_routers dir cur = [])) →
      (get_next_router_loop pick dir plist fuel idx cur canF).1.isSome = true →
      (get_next_router_loop pick dir plist fuel idx cur canF).2.1 = plist.length - 1 →
      (((get_available_routers dir (plist.getD (plist.length - 1) 0)).length < 2 →
          (get_next_router_loop pick dir plist fuel idx cur canF).2.2 = false) ∧
       (∀ u : RouterR,
          get_available_routers dir (plist.getD (plist.length - 1) 0) = [u] →
          (get_next_router_loop pick dir plist fuel idx cur canF).1 = some u)) := by
  have hlen : 1 ≤ plist.length := List.length_pos.mpr hne
  intro fuel
  induction fuel with
  | zero => intro idx cur canF hfuel hidx _ _ _; omega
  | succ n ih =>
    intro idx cur canF hfuel hidx hinv hsome hlast
    by_cases hcond :
        (get_random_connection_params pick dir cur).isSome = true ∨ plist.length ≤ idx
    · have hbreakidx :
          (get_next_router_loop pick dir plist (n + 1) idx cur canF).2.1 = idx := by
        simp only [get_next_router_loop]
        rw [if_pos hcond]
        by_cases hc2 : idx = plist.length - 1 ∧
            (get_available_routers dir cur).length < 2
        · rw [if_pos hc2]
        · rw [if_neg hc2]
      have hidxlast : idx = plist.length - 1 := by rw [← hbreakidx, hlast]
      have hcur : cur = plist.getD (plist.length - 1) 0 := by
        rcases hinv with hc | ⟨hge, hempty⟩
        · rw [hc, hidxlast]
        · omega
      have hrw :
          (get_next_router_loop pick dir plist (n + 1) idx cur canF).1 =
            get_random_connection_params pick dir cur := by
        simp only [get_next_router_loop]
        rw [if_pos hcond]
        by_cases hc2 : idx = plist.length - 1 ∧
            (get_available_routers dir cur).length < 2
        · rw [if_pos hc2]
        · rw [if_neg hc2]
      constructor
      · intro hfew
        simp only [get_next_router_loop]
        rw [if_pos hcond, if_pos ⟨hidxlast, by rw [hcur]; exact hfew⟩]
      · intro u hu
        rw [hrw]
        have hav : get_available_routers dir cur = [u] := by rw [hcur]; exact hu
        unfold get_random_connection_params
        rw [hav]
        rfl
    · have hrec :
          get_next_router_loop pick dir plist (n + 1) idx cur canF =
            get_next_router_loop pick dir plist n (idx + 1)
              (if idx + 1 < plist.length then plist.getD (idx + 1) cur else cur)
              canF := by
        simp only [get_next_router_loop]
        rw [if_neg hcond]
      push_neg at hcond
      obtain ⟨hnone, hlt⟩ := hcond
      have hrouternone : get_random_connection_params pick dir cur = none := by
        cases hr : get_random_connection_params pick dir cur with
        | none => rfl
        | some r => rw [hr] at hnone; simp at hnone
      rw [hrec] at hsome hlast ⊢
      refine ih (idx + 1)
        (if idx + 1 < plist.length then plist.getD (idx + 1) cur else cur) canF
        (by omega) (by omega) ?_ hsome hlast
      by_cases hin : idx + 1 < plist.length
      · rw [if_pos hin]
        exact Or.inl (getD_default_irrel plist (idx + 1) hin cur 0)
      · rw [if_neg hin]
        exact Or.inr ⟨by omega, (get_random_none_iff pick dir cur hpick).mp hrouternone⟩

/-- Claim C4: for a manager with a non-empty router list and an in-range
random oracle, any get_next_router call that selects a candidate while
positioned on the last priority tier with fewer than two available
routers leaves can_failover false; and when the last tier holds exactly
one available router, that same call returns that router (it is attempted
once, and can_failover false prevents a retry). -/
theorem get_next_router_last_tier_spec (pick : Nat → Nat) (m : RouterMgr)
    (hpick : ∀ n, pick n ≤ n) (hr : m.has_routers = true) (hne : m.plist ≠ [])
    (hidx : m.cur_priority_idx ≤ m.plist.length)
    (hsome : (get_next_router pick m).1.isSome = true)
    (hlast : (get_next_router pick m).2.cur_priority_idx = m.plist.length - 1) :
    (((get_available_routers m.dir (m.plist.getD (m.plist.length - 1) 0)).length < 2 →
        (get_next_router pick m).2.can_failover = false) ∧
     (∀ u : RouterR,
        get_available_routers m.dir (m.plist.getD (m.plist.length - 1) 0) = [u] →
        (get_next_router pick m).1 = some u)) := by
  have hgnr : get_next_router pick m =
      ((get_next_router_loop pick m.dir m.plist
          (m.plist.length + 1 - m.cur_priority_idx) m.cur_priority_idx
          (m.plist.getD m.cur_priority_idx 0) m.can_failover).1,
        { m with
          cur_priority_idx :=
            (get_next_router_loop pick m.dir m.plist
              (m.plist.length + 1 - m.cur_priority_idx) m.cur_priority_idx
              (m.plist.getD m.cur_priority_idx 0) m.can_failover).2.1,
          can_failover :=
            (get_next_router_loop pick m.dir m.plist
              (m.plist.length + 1 - m.cur_priority_idx) m.cur_priority_idx
              (m.plist.getD m.cur_priority_idx 0) m.can_failover).2.2 }) := by
    simp [get_next_router, hr]
  rw [hgnr] at hsome hlast ⊢
  simp only at hsome hlast ⊢
  exact gnr_loop_spec pick m.dir m.plist hpick hne
    (m.plist.length + 1 - m.cur_priority_idx) m.cur_priority_idx
    (m.plist.getD m.cur_priority_idx 0) m.can_failover (Nat.le_refl _) hidx
    (Or.inl rfl) hsome hlast

/-- Claim C4 witness: a single tier holding one available router; the call
returns it and can_failover turns false. -/
theorem get_next_router_last_tier_spec_witness :
    (get_next_router (fun _ => 0) mgr_ex).2.can_failover = false ∧
    (get_next_router (fun _ => 0) mgr_ex).1 = some ⟨7, true⟩ :=
  ⟨(get_next_router_last_tier_spec (fun _ => 0) mgr_ex (fun n => Nat.zero_le n) rfl
      (by decide) (by decide) (by decide) (by decide)).1 (by decide),
   (get_next_router_last_tier_spec (fun _ => 0) mgr_ex (fun n => Nat.zero_le n) rfl
      (by decide) (by decide) (by decide) (by decide)).2 ⟨7, true⟩ (by decide)⟩

/-- Claim C7: whenever the connect loop terminates by exhausting failover
(can_failover became false with no successful attempt), the raised error
is the timeout variant exactly when the last stored transport error was a
socket timeout and the interface variant otherwise, each in its
single-endpoint form when at most one router is configured and in its
multi-endpoint form otherwise. -/
theorem connect_exhaustion_classification (pick : Nat → Nat)
    (attempt : Nat → Option TErr) (numRouters : Nat) :
    ∀ (fuel : Nat) (m : RouterMgr) (e0 lastErr : Option TErr) (ce : ConnectError),
      connect_loop pick attempt numRouters fuel m e0 = some (lastErr, Except.error ce) →
      ((∃ e : TErr, lastErr = some e ∧ e.is_socket_timeout = true) →
         ce = if numRouters ≤ 1 then ConnectError.timeoutSingle
              else ConnectError.timeoutMulti) ∧
      ((¬ ∃ e : TErr, lastErr = some e ∧ e.is_socket_timeout = true) →
         ce = if numRouters ≤ 1 then ConnectError.interfaceSingle
              else ConnectError.interfaceMulti) := by
  intro fuel
  induction fuel with
  | zero => intro m e0 lastErr ce h; simp [connect_loop] at h
  | succ n ih =>
    intro m e0 lastErr ce h
    rw [connect_loop] at h
    by_cases hcf : m.can_failover = true
    · rw [if_pos hcf] at h
      split at h
      · simp at h
      · split at h
        · simp at h
        · exact ih _ _ _ _ h
    · rw [if_neg hcf] at h
      simp only [Option.some.injEq, Prod.mk.injEq, Except.error.injEq] at h
      obtain ⟨he, hce⟩ := h
      subst he
      subst hce
      constructor
      · rintro ⟨e, he, hflag⟩
        subst he
        simp [connect_raise, hflag]
      · intro hnot
        cases e0 with
        | none => simp [connect_raise]
        | some e =>
          by_cases hflag : e.is_socket_timeout = true
          · exact absurd ⟨e, rfl, hflag⟩ hnot
          · simp only [Bool.not_eq_true] at hflag
            simp [connect_raise, hflag]

/-- Claim C7 witness: one configured router whose connect attempt fails
with a socket timeout; the loop exhausts failover and raises the
single-endpoint timeout error. -/
theorem connect_exhaustion_classification_witness :
    (∃ e : TErr, (some (⟨true⟩ : TErr)) = some e ∧ e.is_socket_timeout = true) ∧
    ConnectError.timeoutSingle =
      (if (1 : Nat) ≤ 1 then ConnectError.timeoutSingle else ConnectError.timeoutMulti) :=
  ⟨⟨⟨true⟩, rfl, rfl⟩,
   (connect_exhaustion_classification (fun _ => 0) (fun _ => some ⟨true⟩) 1 3 mgr_ex
      none (some ⟨true⟩) ConnectError.timeoutSingle rfl).1 ⟨⟨true⟩, rfl, rfl⟩⟩

end MysqlxConn
